import Mathlib

/-!
Shallow embedding of the Blog-App-Backend content lifecycle and revision
engine, translated from:
  - controllers/client-controllers/postControllers.js
  - controllers/admin-controllers/postControllers.js
  - models/Post.js, models/PostRevision.js, models/Comment.js

Modelling conventions:
  - Mongo ObjectIds are `Nat`; all ids passed to the operations are assumed
    well-formed, so the `isValidObjectId` 400-branches of the controllers are
    not modelled.
  - `Date` values are `Nat` timestamps; each mutating operation receives the
    current time `now` explicitly (the controllers call `new Date()`).
  - The persistent collections (posts, revisions, comments) are a `Store`
    record; `Model.findById` / `findOne` become list lookups, `save` becomes
    an in-place replacement keyed on `id`, `deleteMany` a filter and
    `deleteOne` removal of the first match.
  - Post fields not touched by any verified property (`excerpt`, `tags`,
    `categories`, `featureImageUrl`, `readTimeMinutes`, `viewCount`,
    `commentCount`, `meta`) are omitted; the source updates them
    independently of the modelled fields (`title`, `slug`, `body`, `status`,
    `publishedAt`, `isDeleted`, `updatedAt`).
  - JavaScript string truthiness (`if (title)`) is modelled by `strTruthy`
    (present and non-empty); `typeof body === 'string'` by `Option.isSome`.
  - models/Post.js marks `title`, `slug` and `body` as `required: true`
    strings, and mongoose's required validator rejects the empty string when
    `save()` runs; the thrown ValidationError reaches the controller's
    `catch`, i.e. `next(err)`.  The check is modelled on the paths a
    controller writes: `createPost` writes every path of the new document
    and validates all three; `updatePost` validates the title, slug and
    body values it assigns (`modifiedPathsOk`).  Paths an operation leaves
    untouched were stored by an earlier validated save and are not
    re-checked; the status- and flag-only operations therefore save without
    re-validation.  models/PostRevision.js marks only `postId` as required,
    so revision saves never fail validation.
  - Strings are modelled over their character lists; `String.normalize('NFKD')`
    is the identity on the modelled (already-composed / ASCII) inputs, and the
    diacritic strip `replace(/[̀-ͯ]/g,'')` is the explicit filter
    `stripDiacritics`.
  - HTTP responses are `Response.ok msg` for `res.json({ message: msg, ... })`
    and `Response.err code msg` for `res.status(code).json({ error: msg })`;
    an error forwarded to `next(err)` is `Response.err 500 msg`.
-/

/-- An authenticated identity `{ id, role }` as resolved by the auth
middleware (`req.user`). -/
structure User where
  id : Nat
  role : String
deriving DecidableEq, Repr

/-- A document of the `Post` collection (models/Post.js), restricted to the
fields the verified operations read or write. -/
structure Post where
  id : Nat
  authorId : Nat
  title : String
  slug : String
  body : String
  status : String
  publishedAt : Option Nat
  isDeleted : Bool
  updatedAt : Nat
deriving DecidableEq, Repr

/-- A document of the `PostRevision` collection (models/PostRevision.js). -/
structure Revision where
  id : Nat
  postId : Nat
  editorId : Nat
  title : String
  content : String
  createdAt : Nat
deriving DecidableEq, Repr

/-- A document of the `Comment` collection (models/Comment.js), restricted to
the reference `postId` that `adminForceDeletePost` deletes by. -/
structure Comment where
  id : Nat
  postId : Nat
deriving DecidableEq, Repr

/-- The persistent store backing the three collections, together with the
id counters used to mint fresh document ids. -/
structure Store where
  posts : List Post
  revisions : List Revision
  comments : List Comment
  nextPostId : Nat
  nextRevId : Nat
deriving DecidableEq, Repr

/-- Controller result: `ok` wraps the `message` of a success JSON body,
`err` the HTTP status and `error` message of a failure body. -/
inductive Response where
  | ok (msg : String)
  | err (code : Nat) (msg : String)
deriving DecidableEq, Repr

/-- `Post.findById` / first document whose `_id` matches. -/
def findPost (ps : List Post) (id : Nat) : Option Post :=
  ps.find? (fun p => p.id == id)

/-- `PostRevision.findById`. -/
def findRev (rs : List Revision) (id : Nat) : Option Revision :=
  rs.find? (fun r => r.id == id)

/-- `post.save()` on an already-persisted document: replace the stored
document(s) with that id. -/
def savePost (s : Store) (p : Post) : Store :=
  { s with posts := s.posts.map (fun q => if q.id == p.id then p else q) }

/-- A combining diacritical mark, the range `[̀-ͯ]` of the
`slugify` regex. -/
def isDiacritic (c : Char) : Bool :=
  0x300 ≤ c.toNat && c.toNat ≤ 0x36F

/-- `.replace(/[̀-ͯ]/g, '')`. -/
def stripDiacritics (cs : List Char) : List Char :=
  cs.filter (fun c => !(isDiacritic c))

/-- A character the slug keeps: the class `[a-z0-9]` of the collapse regex. -/
def isSlugChar (c : Char) : Bool :=
  (97 ≤ c.toNat && c.toNat ≤ 122) || (48 ≤ c.toNat && c.toNat ≤ 57)

/-- `.replace(/[^a-z0-9]+/g, '-')`: every maximal run of non-`[a-z0-9]`
characters becomes a single separator. The flag records whether the previous
character already emitted a separator. -/
def collapseAux : Bool → List Char → List Char
  | _, [] => []
  | inRun, c :: cs =>
    if isSlugChar c then c :: collapseAux false cs
    else if inRun then collapseAux true cs
    else '-' :: collapseAux true cs

/-- `.trim()` on the modelled character set. -/
def jsTrim (cs : List Char) : List Char :=
  ((cs.dropWhile Char.isWhitespace).reverse.dropWhile Char.isWhitespace).reverse

/-- `.replace(/(^-|-$)+/g, '')`: drop leading and trailing separators. -/
def stripEdgeDashes (cs : List Char) : List Char :=
  ((cs.dropWhile (fun c => c == '-')).reverse.dropWhile (fun c => c == '-')).reverse

/-- `slugify` of controllers/client-controllers/postControllers.js:
NFKD-normalize (identity on the modelled inputs), strip diacritics,
lowercase, trim, collapse non-alphanumeric runs to `-`, strip edge `-`. -/
def slugify (text : String) : String :=
  let lowered := (stripDiacritics text.data).map Char.toLower
  let collapsed := collapseAux false (jsTrim lowered)
  String.mk (stripEdgeDashes collapsed)

/-- `Post.findOne({ slug })`, optionally with `_id: { $ne: excl }`: is the
candidate slug already used by a (different) post?  Matches every stored
post, deleted ones included, exactly as the source queries do. -/
def slugTaken (ps : List Post) (slug : String) (excl : Option Nat) : Bool :=
  ps.any (fun p =>
    p.slug == slug &&
    (match excl with
     | some i => p.id != i
     | none => true))

/-- The suffix-probing `while` loop of `createPost` / `updatePost`:
try `base-1`, `base-2`, … until a free candidate is found.  The fuel is one
more than the number of stored posts, so the loop always finds a free
candidate before the fuel runs out. -/
def allocSlugAux (ps : List Post) (base : String) (excl : Option Nat) :
    Nat → Nat → String
  | counter, 0 => base ++ "-" ++ toString counter
  | counter, fuel + 1 =>
    let cand := base ++ "-" ++ toString counter
    if slugTaken ps cand excl then allocSlugAux ps base excl (counter + 1) fuel
    else cand

/-- Slug allocation as performed inline by `createPost` and `updatePost`:
keep the base when free, otherwise probe numbered suffixes. -/
def allocSlug (ps : List Post) (base : String) (excl : Option Nat) : String :=
  if slugTaken ps base excl then allocSlugAux ps base excl 1 (ps.length + 1)
  else base

/-- `isOwnerOrAdmin(user, resourceAuthorId)` of the client controllers. -/
def isOwnerOrAdmin (user : Option User) (resourceAuthorId : Nat) : Bool :=
  match user with
  | none => false
  | some u => u.role == "admin" || resourceAuthorId == u.id

/-- JavaScript truthiness of an optional string field: present and
non-empty. -/
def strTruthy : Option String → Bool
  | none => false
  | some t => t != ""

/-- The request body of `updatePost`, restricted to the modelled fields.
A `none` field is absent from the patch. -/
structure UpdatePatch where
  title : Option String := none
  body : Option String := none
  status : Option String := none
deriving DecidableEq, Repr

/-- The save-time `required` validation of models/Post.js restricted to the
paths `updatePost` assigns: a truthy incoming title makes the controller
write `post.title` (and possibly `post.slug`), so those two required string
paths of the resulting document are validated; an incoming body string makes
it write `post.body`, so that path is validated.  Mongoose's required
validator rejects the empty string; a failing `save()` throws and reaches
`next(err)`.  Required paths this call did not write were stored by an
earlier validated save. -/
def modifiedPathsOk (patch : UpdatePatch) (newPost : Post) : Bool :=
  (!(strTruthy patch.title) || (newPost.title != "" && newPost.slug != "")) &&
  (patch.body.isNone || newPost.body != "")

/-- `exports.createPost` (client controller): requires a user and non-empty
title and body, allocates a unique slug from the title, and inserts a new
post whose status is `published` (with `publishedAt` set) only when an admin
explicitly asked for it, else `draft`.  `post.save()` on the new document
runs the schema's required validators over every path, so an empty `title`,
`slug` or `body` makes the save throw a ValidationError (forwarded to
`next(err)`) and nothing is stored. -/
def createPost (s : Store) (user : Option User) (title body : String)
    (desiredStatus : Option String) (now : Nat) : Response × Store :=
  match user with
  | none => (.err 401 "Unauthorized", s)
  | some u =>
    if title == "" || body == "" then
      (.err 400 "Title and body are required", s)
    else
      let slugBase := slugify title
      let slug := allocSlug s.posts slugBase none
      let status :=
        if desiredStatus == some "published" && u.role == "admin" then "published"
        else "draft"
      let post : Post :=
        { id := s.nextPostId
          authorId := u.id
          title := title
          slug := slug
          body := body
          status := status
          publishedAt := if status == "published" then some now else none
          isDeleted := false
          updatedAt := now }
      if post.title != "" && post.slug != "" && post.body != "" then
        (.ok "Post created",
          { s with posts := s.posts ++ [post], nextPostId := s.nextPostId + 1 })
      else (.err 500 "Post validation failed", s)

/-- `exports.updatePost` (client controller): owner-or-admin update that
snapshots a revision when the (truthy) incoming title or body differs,
re-slugs on title change, applies the patch, and routes a `published` status
from a non-admin to `pending`.  The final `post.save()` runs the schema's
required validators on the paths this call assigned (`modifiedPathsOk`); on
failure the error goes to `next(err)` and the post is not persisted — but
the revision saved beforehand remains (there is no transaction here). -/
def updatePost (s : Store) (user : Option User) (id : Nat)
    (patch : UpdatePatch) (now : Nat) : Response × Store :=
  match user with
  | none => (.err 401 "Unauthorized", s)
  | some u =>
    match findPost s.posts id with
    | none => (.err 404 "Post not found", s)
    | some post =>
      if post.isDeleted then (.err 404 "Post not found", s)
      else if !(isOwnerOrAdmin user post.authorId) then
        (.err 403 "Forbidden", s)
      else
        let changed :=
          (strTruthy patch.title && patch.title.getD "" != post.title) ||
          (strTruthy patch.body && patch.body.getD "" != post.body)
        let s1 :=
          if changed then
            { s with
              revisions := s.revisions ++
                [{ id := s.nextRevId
                   postId := post.id
                   editorId := u.id
                   title := post.title
                   content := post.body
                   createdAt := now }]
              nextRevId := s.nextRevId + 1 }
          else s
        let post1 :=
          if strTruthy patch.title then
            let t := patch.title.getD ""
            let newSlug := slugify t
            if newSlug != post.slug then
              { post with
                title := t
                slug := allocSlug s1.posts newSlug (some post.id) }
            else { post with title := t }
          else post
        let post2 :=
          match patch.body with
          | some b => { post1 with body := b }
          | none => post1
        let post3 :=
          match patch.status with
          | some st =>
            if st == "" then post2
            else if st == "published" && u.role != "admin" then
              { post2 with status := "pending" }
            else
              { post2 with
                status := st
                publishedAt :=
                  if st == "published" && post2.publishedAt.isNone then some now
                  else post2.publishedAt }
          | none => post2
        let post4 := { post3 with updatedAt := now }
        if modifiedPathsOk patch post4 then (.ok "Post updated", savePost s1 post4)
        else (.err 500 "Post validation failed", s1)

/-- `exports.deletePost` (client controller): owner-or-admin soft delete.
Marks the post deleted and archived; the source performs no check that the
post is not already deleted. -/
def deletePost (s : Store) (user : Option User) (id : Nat) (now : Nat) :
    Response × Store :=
  match user with
  | none => (.err 401 "Unauthorized", s)
  | some u =>
    match findPost s.posts id with
    | none => (.err 404 "Post not found", s)
    | some post =>
      if !(isOwnerOrAdmin (some u) post.authorId) then
        (.err 403 "Forbidden", s)
      else
        (.ok "Post soft-deleted",
          savePost s { post with isDeleted := true, status := "archived", updatedAt := now })

/-- `exports.publishPost` (client controller): an admin publishes
immediately, unconditionally stamping `publishedAt = new Date()`; a non-admin
owner only requests publication (`status = 'pending'`). -/
def publishPost (s : Store) (user : Option User) (id : Nat) (now : Nat) :
    Response × Store :=
  match user with
  | none => (.err 401 "Unauthorized", s)
  | some u =>
    match findPost s.posts id with
    | none => (.err 404 "Post not found", s)
    | some post =>
      if post.isDeleted then (.err 404 "Post not found", s)
      else if !(isOwnerOrAdmin (some u) post.authorId) then
        (.err 403 "Forbidden", s)
      else if u.role == "admin" then
        (.ok "Post published",
          savePost s { post with status := "published", publishedAt := some now })
      else
        (.ok "Publish request submitted",
          savePost s { post with status := "pending", updatedAt := now })

/-- `exports.unpublishPost` (client controller): owner-or-admin; sets the
status back to `draft` with no check on the current status or the
`isDeleted` flag, and leaves `publishedAt` untouched. -/
def unpublishPost (s : Store) (user : Option User) (id : Nat) (now : Nat) :
    Response × Store :=
  match user with
  | none => (.err 401 "Unauthorized", s)
  | some u =>
    match findPost s.posts id with
    | none => (.err 404 "Post not found", s)
    | some post =>
      if !(isOwnerOrAdmin (some u) post.authorId) then
        (.err 403 "Forbidden", s)
      else
        (.ok "Post unpublished",
          savePost s { post with status := "draft", updatedAt := now })

/-- `exports.restoreRevision` (client controller): owner-or-admin; rejects a
revision belonging to another post as not-found, snapshots the current
title/body as a fresh revision, then overwrites the post's title and body
with the selected revision's. -/
def restoreRevision (s : Store) (user : Option User) (id revId : Nat)
    (now : Nat) : Response × Store :=
  match user with
  | none => (.err 401 "Unauthorized", s)
  | some u =>
    match findPost s.posts id with
    | none => (.err 404 "Post not found", s)
    | some post =>
      if !(isOwnerOrAdmin (some u) post.authorId) then
        (.err 403 "Forbidden", s)
      else
        match findRev s.revisions revId with
        | none => (.err 404 "Revision not found", s)
        | some revision =>
          if revision.postId != post.id then (.err 404 "Revision not found", s)
          else
            let s1 :=
              { s with
                revisions := s.revisions ++
                  [{ id := s.nextRevId
                     postId := post.id
                     editorId := u.id
                     title := post.title
                     content := post.body
                     createdAt := now }]
                nextRevId := s.nextRevId + 1 }
            (.ok "Revision restored",
              savePost s1
                { post with
                  title := revision.title
                  body := revision.content
                  updatedAt := now })

/-- `exports.adminDeletePost` (admin controller): soft delete that rejects an
already-deleted post with a 400 `Post already deleted` error. -/
def adminDeletePost (s : Store) (id : Nat) (now : Nat) : Response × Store :=
  match findPost s.posts id with
  | none => (.err 404 "Post not found", s)
  | some post =>
    if post.isDeleted then (.err 400 "Post already deleted", s)
    else
      (.ok "Post soft-deleted",
        savePost s { post with isDeleted := true, status := "archived", updatedAt := now })

/-- `exports.adminForceDeletePost` (admin controller), with explicit failure
injection for its three deletions.  The source wraps them in a transaction,
but attaches `.catch(() => {})` to the revision- and comment-`deleteMany`
calls: a failure there is swallowed (that deletion simply has no effect) and
execution continues to delete the post and commit.  Only a failure of the
final `Post.deleteOne` reaches the outer handler, which aborts the
transaction (store unchanged) and forwards the error. -/
def adminForceDeletePost (s : Store) (id : Nat)
    (revDelFails comDelFails postDelFails : Bool) : Response × Store :=
  match findPost s.posts id with
  | none => (.err 404 "Post not found", s)
  | some post =>
    let s1 :=
      if revDelFails then s
      else { s with revisions := s.revisions.filter (fun r => r.postId != post.id) }
    let s2 :=
      if comDelFails then s1
      else { s1 with comments := s1.comments.filter (fun c => c.postId != post.id) }
    if postDelFails then (.err 500 "Internal error", s)
    else
      (.ok "Post permanently deleted",
        { s2 with posts := s2.posts.eraseP (fun p => p.id == post.id) })

/-- `exports.adminRestorePost` (admin controller): rejects a post that is not
soft-deleted with a 400 `Post is not deleted` error; otherwise clears the
flag and revives the status to `published` exactly when `publishedAt` was
ever set, else `draft`. -/
def adminRestorePost (s : Store) (id : Nat) (now : Nat) : Response × Store :=
  match findPost s.posts id with
  | none => (.err 404 "Post not found", s)
  | some post =>
    if !post.isDeleted then (.err 400 "Post is not deleted", s)
    else
      (.ok "Post restored",
        savePost s
          { post with
            isDeleted := false
            status := if post.publishedAt.isSome then "published" else "draft"
            updatedAt := now })

/-- `exports.adminBulkPublish` (admin controller): `publish = some true`
stamps status `published` and a fresh `publishedAt` on every matched post,
`publish = some false` stamps status `draft`; anything else is a 400.  The
`ids` filter keeps every stored post whose id is listed (all modelled ids
are valid ObjectIds). -/
def adminBulkPublish (s : Store) (ids : List Nat) (publish : Option Bool)
    (now : Nat) : Response × Store :=
  if ids.isEmpty then (.err 400 "ids array required", s)
  else
    match publish with
    | some true =>
      (.ok "Bulk update applied",
        { s with
          posts := s.posts.map (fun p =>
            if ids.contains p.id then
              { p with status := "published", publishedAt := some now, updatedAt := now }
            else p) })
    | some false =>
      (.ok "Bulk update applied",
        { s with
          posts := s.posts.map (fun p =>
            if ids.contains p.id then
              { p with status := "draft", updatedAt := now }
            else p) })
    | none => (.err 400 "publish boolean required", s)

/-! Concrete fixtures used to instantiate the verified properties. -/

/-- A draft post owned by author 7, for exercising `publishPost`. -/
def c3Post : Post :=
  { id := 1, authorId := 7, title := "t", slug := "t", body := "b",
    status := "draft", publishedAt := none, isDeleted := false, updatedAt := 0 }

/-- Store holding only `c3Post`. -/
def c3Store : Store :=
  { posts := [c3Post], revisions := [], comments := [], nextPostId := 2, nextRevId := 1 }

/-- A soft-deleted, previously published post, for exercising `unpublishPost`
on an archived document. -/
def c10Post : Post :=
  { id := 1, authorId := 7, title := "t", slug := "t", body := "b",
    status := "archived", publishedAt := some 3, isDeleted := true, updatedAt := 0 }

/-- Store holding only `c10Post`. -/
def c10Store : Store :=
  { posts := [c10Post], revisions := [], comments := [], nextPostId := 2, nextRevId := 1 }

/-- A live draft post, for the restore-of-non-deleted conflict. -/
def c5PostA : Post :=
  { id := 1, authorId := 7, title := "a", slug := "a", body := "a",
    status := "draft", publishedAt := none, isDeleted := false, updatedAt := 0 }

/-- A soft-deleted post that was once published, for the restore target rule. -/
def c5PostB : Post :=
  { id := 2, authorId := 7, title := "b", slug := "b", body := "b",
    status := "archived", publishedAt := some 3, isDeleted := true, updatedAt := 0 }

/-- Store holding `c5PostA` and `c5PostB`. -/
def c5Store : Store :=
  { posts := [c5PostA, c5PostB], revisions := [], comments := [],
    nextPostId := 3, nextRevId := 1 }

/-- An already soft-deleted post, for the double-delete behaviour. -/
def c4Post : Post :=
  { id := 1, authorId := 7, title := "t", slug := "t", body := "b",
    status := "archived", publishedAt := none, isDeleted := true, updatedAt := 0 }

/-- Store holding only `c4Post`. -/
def c4Store : Store :=
  { posts := [c4Post], revisions := [], comments := [], nextPostId := 2, nextRevId := 1 }

/-- A post currently holding content C2 = (t2, c2). -/
def c7Post : Post :=
  { id := 1, authorId := 7, title := "t2", slug := "t2", body := "c2",
    status := "draft", publishedAt := none, isDeleted := false, updatedAt := 0 }

/-- A stored revision holding the earlier content C1 = (t1, c1). -/
def c7Rev : Revision :=
  { id := 4, postId := 1, editorId := 7, title := "t1", content := "c1", createdAt := 2 }

/-- Store holding `c7Post` with history `[c7Rev]`. -/
def c7Store : Store :=
  { posts := [c7Post], revisions := [c7Rev], comments := [],
    nextPostId := 2, nextRevId := 5 }

/-- A post with one revision and one comment, for force-delete. -/
def c2Post : Post :=
  { id := 1, authorId := 7, title := "t", slug := "t", body := "b",
    status := "published", publishedAt := some 3, isDeleted := false, updatedAt := 0 }

/-- Store holding `c2Post`, one revision of it and one comment on it. -/
def c2Store : Store :=
  { posts := [c2Post]
    revisions := [{ id := 1, postId := 1, editorId := 7, title := "t0",
                    content := "b0", createdAt := 1 }]
    comments := [{ id := 1, postId := 1 }]
    nextPostId := 2, nextRevId := 2 }

/-- A post whose `publishedAt` is already set (to 5). -/
def c1Post : Post :=
  { id := 1, authorId := 2, title := "t", slug := "t", body := "b",
    status := "published", publishedAt := some 5, isDeleted := false, updatedAt := 0 }

/-- Store holding only `c1Post`. -/
def c1Store : Store :=
  { posts := [c1Post], revisions := [], comments := [], nextPostId := 2, nextRevId := 1 }

/-- A post with non-empty body `x`, for the revision-snapshot rules. -/
def c6Post : Post :=
  { id := 1, authorId := 7, title := "t", slug := "t", body := "x",
    status := "draft", publishedAt := none, isDeleted := false, updatedAt := 0 }

/-- Store holding only `c6Post`, with no revisions. -/
def c6Store : Store :=
  { posts := [c6Post], revisions := [], comments := [], nextPostId := 2, nextRevId := 1 }

/-- A draft post owned by author 7, for the direct status assignment. -/
def c9Post : Post :=
  { id := 1, authorId := 7, title := "t", slug := "t", body := "b",
    status := "draft", publishedAt := none, isDeleted := false, updatedAt := 0 }

/-- Store holding only `c9Post`. -/
def c9Store : Store :=
  { posts := [c9Post], revisions := [], comments := [], nextPostId := 2, nextRevId := 1 }

/-- An empty store, for slug allocation on creation. -/
def c8Store : Store :=
  { posts := [], revisions := [], comments := [], nextPostId := 1, nextRevId := 1 }

/-! Helper lemmas about the store primitives. -/

/-- `findPost` commutes with an id-preserving per-document rewrite of the
collection. -/
theorem findPost_map (f : Post → Post) (hf : ∀ r, (f r).id = r.id)
    (ps : List Post) (id : Nat) :
    findPost (ps.map f) id = (findPost ps id).map f := by
  induction ps with
  | nil => simp [findPost]
  | cons a as ih =>
    simp only [findPost, List.map_cons, List.find?_cons] at *
    by_cases ha : a.id = id
    · simp [hf a, ha]
    · have hb : (a.id == id) = false := by simpa using ha
      simp only [hf a, hb]
      exact ih

/-- Looking a post up after `savePost` finds the saved document whenever the
previously found one carried the same id. -/
theorem findPost_savePost (s : Store) (q : Post) (id : Nat) :
    findPost (savePost s q).posts id =
      (findPost s.posts id).map (fun r => if r.id == q.id then q else r) := by
  apply findPost_map
  intro r
  by_cases h : r.id = q.id <;> simp [h]

/-- `findPost` commutes with the bulk-publish update map. -/
theorem findPost_bulkPub (ids : List Nat) (now : Nat) (ps : List Post) (id : Nat) :
    findPost (ps.map (fun p =>
      if ids.contains p.id then
        { p with status := "published", publishedAt := some now, updatedAt := now }
      else p)) id =
    (findPost ps id).map (fun p =>
      if ids.contains p.id then
        { p with status := "published", publishedAt := some now, updatedAt := now }
      else p) :=
  findPost_map _ (fun r => by by_cases hc : r.id ∈ ids <;> simp [hc]) ps id

/-- The revision trail written by an authorized `updatePost`: one snapshot of
the pre-change title/body exactly when the truthy incoming title or body
differs from the stored value, otherwise no snapshot.  This holds whether or
not the final `post.save()` passes validation: the revision is saved before
the post and is not rolled back. -/
theorem updatePost_revisions (s : Store) (u : User) (id now : Nat)
    (patch : UpdatePatch) (p : Post)
    (hp : findPost s.posts id = some p) (hnd : p.isDeleted = false)
    (hauth : isOwnerOrAdmin (some u) p.authorId = true) :
    (updatePost s (some u) id patch now).2.revisions =
      if (strTruthy patch.title && patch.title.getD "" != p.title) ||
         (strTruthy patch.body && patch.body.getD "" != p.body) then
        s.revisions ++
          [{ id := s.nextRevId, postId := p.id, editorId := u.id,
             title := p.title, content := p.body, createdAt := now }]
      else s.revisions := by
  simp only [updatePost, hp, hnd, hauth, Bool.not_true, Bool.false_eq_true, if_false]
  by_cases hch : ((strTruthy patch.title && patch.title.getD "" != p.title) ||
      (strTruthy patch.body && patch.body.getD "" != p.body)) = true
  · rw [if_pos hch, if_pos hch]
    simp [savePost, apply_ite Prod.snd, apply_ite Store.revisions]
  · rw [if_neg hch, if_neg hch]
    simp [savePost, apply_ite Prod.snd, apply_ite Store.revisions]

/-! Claim C1. -/

/-- C1, counterexample: `publishPost` by an admin on a post whose
`publishedAt` is already 5 overwrites it to the current time 6, and
`adminBulkPublish` does the same — so a subsequent publish does change the
`publishedAt` value, contradicting the claim that no subsequent operation
ever changes it. -/
theorem publishedAt_overwritten_cex :
    (findPost c1Store.posts 1).map Post.publishedAt = some (some 5) ∧
    (findPost (publishPost c1Store (some ⟨2, "admin"⟩) 1 6).2.posts 1).map
        Post.publishedAt = some (some 6) ∧
    (findPost (adminBulkPublish c1Store [1] (some true) 6).2.posts 1).map
        Post.publishedAt = some (some 6) := by decide

/-- C1, amended: for a post whose `publishedAt` is set, unpublishing and
admin restore leave the value unchanged, and re-publishing (single admin
publish or bulk publish) never clears it back to null — though it may
overwrite it with the current time, as the counterexample shows. -/
theorem publishedAt_never_cleared (s : Store) (u : User) (ids : List Nat)
    (id now t : Nat) (p : Post)
    (hp : findPost s.posts id = some p) (ht : p.publishedAt = some t) :
    (∀ q, findPost (unpublishPost s (some u) id now).2.posts id = some q →
       q.publishedAt = some t) ∧
    (∀ q, findPost (adminRestorePost s id now).2.posts id = some q →
       q.publishedAt = some t) ∧
    (∀ q, findPost (publishPost s (some u) id now).2.posts id = some q →
       q.publishedAt ≠ none) ∧
    (∀ q, findPost (adminBulkPublish s ids (some true) now).2.posts id = some q →
       q.publishedAt ≠ none) := by
  refine ⟨?_, ?_, ?_, ?_⟩
  · intro q hq
    by_cases hauth : isOwnerOrAdmin (some u) p.authorId = true
    · simp only [unpublishPost, hp, hauth, Bool.not_true, Bool.false_eq_true,
        if_false] at hq
      rw [findPost_savePost, hp] at hq
      simp at hq
      rw [← hq, ht]
    · have hb : isOwnerOrAdmin (some u) p.authorId = false := by
        simpa using hauth
      simp only [unpublishPost, hp, hb, Bool.not_false, if_true] at hq
      injection hq with h
      rw [← h, ht]
  · intro q hq
    by_cases hdel : p.isDeleted = true
    · simp only [adminRestorePost, hp, hdel, Bool.not_true, Bool.false_eq_true,
        if_false] at hq
      rw [findPost_savePost, hp] at hq
      simp at hq
      rw [← hq, ht]
    · have hb : p.isDeleted = false := by simpa using hdel
      simp only [adminRestorePost, hp, hb, Bool.not_false, if_true] at hq
      injection hq with h
      rw [← h, ht]
  · intro q hq
    by_cases hdel : p.isDeleted = true
    · simp only [publishPost, hp, hdel, if_true] at hq
      injection hq with h
      rw [← h, ht]
      simp
    · have hnd : p.isDeleted = false := by simpa using hdel
      by_cases hauth : isOwnerOrAdmin (some u) p.authorId = true
      · by_cases hadm : (u.role == "admin") = true
        · simp only [publishPost, hp, hnd, hauth, hadm, Bool.not_true,
            Bool.false_eq_true, if_false, if_true] at hq
          rw [findPost_savePost, hp] at hq
          simp at hq
          rw [← hq]
          simp
        · have hb : (u.role == "admin") = false := by simpa using hadm
          simp only [publishPost, hp, hnd, hauth, hb, Bool.not_true,
            Bool.false_eq_true, if_false] at hq
          rw [findPost_savePost, hp] at hq
          simp at hq
          rw [← hq, ht]
          simp
      · have hb : isOwnerOrAdmin (some u) p.authorId = false := by
          simpa using hauth
        simp only [publishPost, hp, hnd, hb, Bool.not_false, if_true,
          Bool.false_eq_true, if_false] at hq
        injection hq with h
        rw [← h, ht]
        simp
  · intro q hq
    by_cases hids : ids.isEmpty = true
    · simp only [adminBulkPublish, hids, if_true] at hq
      rw [hp] at hq
      injection hq with h
      rw [← h, ht]
      simp
    · have hb : ids.isEmpty = false := by simpa using hids
      simp only [adminBulkPublish, hb, Bool.false_eq_true, if_false] at hq
      rw [findPost_bulkPub, hp] at hq
      simp only [Option.map_some'] at hq
      by_cases hc : ids.contains p.id = true
      · rw [if_pos hc] at hq
        injection hq with h
        rw [← h]
        simp
      · rw [if_neg hc] at hq
        injection hq with h
        rw [← h, ht]
        simp

/-- C1, witness: the amended statement instantiated on `c1Store`. -/
theorem publishedAt_never_cleared_witness :
    (∀ q, findPost (unpublishPost c1Store (some ⟨2, "admin"⟩) 1 6).2.posts 1 = some q →
       q.publishedAt = some 5) ∧
    (∀ q, findPost (adminRestorePost c1Store 1 6).2.posts 1 = some q →
       q.publishedAt = some 5) ∧
    (∀ q, findPost (publishPost c1Store (some ⟨2, "admin"⟩) 1 6).2.posts 1 = some q →
       q.publishedAt ≠ none) ∧
    (∀ q, findPost (adminBulkPublish c1Store [1] (some true) 6).2.posts 1 = some q →
       q.publishedAt ≠ none) :=
  publishedAt_never_cleared c1Store ⟨2, "admin"⟩ [1] 1 6 5 c1Post (by decide) (by decide)

/-! Claim C2. -/

/-- C2, counterexample: force-deleting `c2Store`'s post while the
comment-deletion step fails still reports success and still removes the post
and its revisions, leaving the comment behind — the store is not left
unchanged, contradicting the claimed all-or-nothing behaviour. -/
theorem forceDelete_not_atomic_cex :
    (adminForceDeletePost c2Store 1 false true false).1 = .ok "Post permanently deleted" ∧
    (adminForceDeletePost c2Store 1 false true false).2.posts = [] ∧
    (adminForceDeletePost c2Store 1 false true false).2.revisions = [] ∧
    (adminForceDeletePost c2Store 1 false true false).2.comments = c2Store.comments ∧
    c2Store.comments ≠ [] := by decide

/-- C2, amended: in the all-success case force delete removes the post, its
revisions and its comments; but the revision- and comment-deletion steps are
best-effort (their failure is swallowed by `.catch(() => {})`), so a failed
comment deletion still deletes the revisions and the post; only a failure of
the final post deletion aborts the transaction and leaves the store
unchanged. -/
theorem forceDelete_failure_semantics (s : Store) (id : Nat) (p : Post)
    (hp : findPost s.posts id = some p) :
    (adminForceDeletePost s id false false false =
      (.ok "Post permanently deleted",
        { s with
          posts := s.posts.eraseP (fun q => q.id == p.id)
          revisions := s.revisions.filter (fun r => r.postId != p.id)
          comments := s.comments.filter (fun c => c.postId != p.id) })) ∧
    (adminForceDeletePost s id false true false =
      (.ok "Post permanently deleted",
        { s with
          posts := s.posts.eraseP (fun q => q.id == p.id)
          revisions := s.revisions.filter (fun r => r.postId != p.id) })) ∧
    (∀ rf cf, adminForceDeletePost s id rf cf true = (.err 500 "Internal error", s)) := by
  refine ⟨?_, ?_, ?_⟩
  · simp [adminForceDeletePost, hp]
  · simp [adminForceDeletePost, hp]
  · intro rf cf
    simp [adminForceDeletePost, hp]

/-- C2, witness: the amended statement instantiated on `c2Store`. -/
theorem forceDelete_failure_semantics_witness :
    (adminForceDeletePost c2Store 1 false false false =
      (.ok "Post permanently deleted",
        { c2Store with
          posts := c2Store.posts.eraseP (fun q => q.id == c2Post.id)
          revisions := c2Store.revisions.filter (fun r => r.postId != c2Post.id)
          comments := c2Store.comments.filter (fun c => c.postId != c2Post.id) })) ∧
    (adminForceDeletePost c2Store 1 false true false =
      (.ok "Post permanently deleted",
        { c2Store with
          posts := c2Store.posts.eraseP (fun q => q.id == c2Post.id)
          revisions := c2Store.revisions.filter (fun r => r.postId != c2Post.id) })) ∧
    (∀ rf cf, adminForceDeletePost c2Store 1 rf cf true =
      (.err 500 "Internal error", c2Store)) :=
  forceDelete_failure_semantics c2Store 1 c2Post (by decide)

/-! Claim C3. -/

/-- C3: on an existing non-deleted post, a publish request by the owning
non-admin author stores status `pending` (not `published`), while the same
request by an administrator stores status `published` with `publishedAt`
set to the current time. -/
theorem publish_role_split (s : Store) (u : User) (id now : Nat) (p : Post)
    (hp : findPost s.posts id = some p) (hnd : p.isDeleted = false) :
    (u.role ≠ "admin" → p.authorId = u.id →
      findPost (publishPost s (some u) id now).2.posts id =
        some { p with status := "pending", updatedAt := now }) ∧
    (u.role = "admin" →
      findPost (publishPost s (some u) id now).2.posts id =
        some { p with status := "published", publishedAt := some now }) := by
  constructor
  · intro hrole hown
    have hb : (u.role == "admin") = false := by simpa using hrole
    have hauth : isOwnerOrAdmin (some u) p.authorId = true := by
      simp [isOwnerOrAdmin, hown, hb]
    simp only [publishPost, hp, hnd, hauth, hb, Bool.not_true, Bool.false_eq_true,
      if_false, if_true]
    rw [findPost_savePost, hp]
    simp
  · intro hrole
    have hb : (u.role == "admin") = true := by simpa using hrole
    have hauth : isOwnerOrAdmin (some u) p.authorId = true := by
      simp [isOwnerOrAdmin, hb]
    simp only [publishPost, hp, hnd, hauth, hb, Bool.not_true, Bool.false_eq_true,
      if_false, if_true]
    rw [findPost_savePost, hp]
    simp

/-- C3, witness: `publish_role_split` instantiated on `c3Store` for the
owning author (role `author`) and for an administrator. -/
theorem publish_role_split_witness :
    (findPost ((publishPost c3Store (some ⟨7, "author"⟩) 1 5).2.posts) 1 =
      some { c3Post with status := "pending", updatedAt := 5 }) ∧
    (findPost ((publishPost c3Store (some ⟨2, "admin"⟩) 1 5).2.posts) 1 =
      some { c3Post with status := "published", publishedAt := some 5 }) :=
  ⟨(publish_role_split c3Store ⟨7, "author"⟩ 1 5 c3Post (by decide) (by decide)).1
      (by decide) (by decide),
   (publish_role_split c3Store ⟨2, "admin"⟩ 1 5 c3Post (by decide) (by decide)).2 rfl⟩

/-! Claim C4. -/

/-- C4, counterexample: the author-facing `deletePost` on an already
soft-deleted post reports success (`Post soft-deleted`), not a conflict
error, contradicting the claim that both soft-delete operations report a
conflict on an already-deleted post. -/
theorem client_double_delete_silent_cex :
    c4Post.isDeleted = true ∧
    (deletePost c4Store (some ⟨7, "author"⟩) 1 9).1 = .ok "Post soft-deleted" ∧
    (findPost (deletePost c4Store (some ⟨7, "author"⟩) 1 9).2.posts 1).map Post.status =
      some "archived" := by decide

/-- C4, amended: on an already soft-deleted post, only the admin-facing
soft delete reports the conflict (`400 Post already deleted`) and leaves the
store unchanged; the author-facing soft delete silently succeeds, reasserting
`isDeleted = true` and status `archived`. -/
theorem softDelete_double_delete (s : Store) (u : User) (id now : Nat) (p : Post)
    (hp : findPost s.posts id = some p) (hdel : p.isDeleted = true)
    (hauth : isOwnerOrAdmin (some u) p.authorId = true) :
    adminDeletePost s id now = (.err 400 "Post already deleted", s) ∧
    (deletePost s (some u) id now).1 = .ok "Post soft-deleted" ∧
    findPost (deletePost s (some u) id now).2.posts id =
      some { p with isDeleted := true, status := "archived", updatedAt := now } := by
  refine ⟨by simp [adminDeletePost, hp, hdel], ?_, ?_⟩
  · simp [deletePost, hp, hauth]
  · simp only [deletePost, hp, hauth, Bool.not_true, Bool.false_eq_true, if_false]
    rw [findPost_savePost, hp]
    simp

/-- C4, witness: the amended statement instantiated on `c4Store` with the
owning author. -/
theorem softDelete_double_delete_witness :
    adminDeletePost c4Store 1 9 = (.err 400 "Post already deleted", c4Store) ∧
    (deletePost c4Store (some ⟨7, "writer"⟩) 1 9).1 = .ok "Post soft-deleted" ∧
    findPost (deletePost c4Store (some ⟨7, "writer"⟩) 1 9).2.posts 1 =
      some { c4Post with isDeleted := true, status := "archived", updatedAt := 9 } :=
  softDelete_double_delete c4Store ⟨7, "writer"⟩ 1 9 c4Post (by decide) (by decide)
    (by decide)

/-! Claim C5. -/

/-- C5: admin restore of a non-deleted post fails with the conflict response
`400 Post is not deleted` and changes nothing; restore of a soft-deleted
post clears `isDeleted` and sets status to `published` exactly when
`publishedAt` was ever set, else `draft`. -/
theorem adminRestore_conflict_and_target (s : Store) (id now : Nat) (p : Post)
    (hp : findPost s.posts id = some p) :
    (p.isDeleted = false →
      adminRestorePost s id now = (.err 400 "Post is not deleted", s)) ∧
    (p.isDeleted = true →
      findPost (adminRestorePost s id now).2.posts id =
        some { p with
               isDeleted := false
               status := if p.publishedAt.isSome then "published" else "draft"
               updatedAt := now }) := by
  constructor
  · intro h
    simp [adminRestorePost, hp, h]
  · intro h
    simp only [adminRestorePost, hp, h, Bool.not_true, Bool.false_eq_true, if_false]
    rw [findPost_savePost, hp]
    simp

/-- C5, witness: restoring the live post `c5PostA` conflicts; restoring the
soft-deleted, once-published post `c5PostB` revives it as `published`. -/
theorem adminRestore_conflict_and_target_witness :
    (adminRestorePost c5Store 1 9 = (.err 400 "Post is not deleted", c5Store)) ∧
    (findPost (adminRestorePost c5Store 2 9).2.posts 2 =
      some { c5PostB with
             isDeleted := false
             status := if c5PostB.publishedAt.isSome then "published" else "draft"
             updatedAt := 9 }) ∧
    (if c5PostB.publishedAt.isSome then "published" else "draft") = "published" :=
  ⟨(adminRestore_conflict_and_target c5Store 1 9 c5PostA (by decide)).1 rfl,
   (adminRestore_conflict_and_target c5Store 2 9 c5PostB (by decide)).2 rfl,
   by decide⟩

/-! Claim C6. -/

/-- C6, counterexample: an update whose patch body is the empty string, on a
post whose stored body is `x`, is an update whose body differs from the
stored value, yet it creates zero revisions — the truthiness check excludes
the empty string from the `changed` test, and the assigned empty body then
fails the schema's required validation at `post.save()`, so the request
errors with the store unchanged instead of snapshotting one revision as the
claim demands. -/
theorem empty_body_no_revision_cex :
    c6Post.body = "x" ∧
    updatePost c6Store (some ⟨7, "author"⟩) 1 { body := some "" } 9 =
      (.err 500 "Post validation failed", c6Store) := by decide

/-- C6, amended: an update whose patch title and body equal the stored values
(or are absent) creates zero revisions; an update whose patch title or body
is a non-empty string differing from the stored value creates exactly one
revision capturing the pre-change title and body; but a patch body equal to
the empty string creates no revision — it is excluded from the difference
check by truthiness, and the save is then rejected by the required-body
validation, so the update fails with the store unchanged. -/
theorem update_revision_snapshot (s : Store) (u : User) (id now : Nat)
    (patch : UpdatePatch) (p : Post)
    (hp : findPost s.posts id = some p) (hnd : p.isDeleted = false)
    (hauth : isOwnerOrAdmin (some u) p.authorId = true) :
    ((patch.title = some p.title ∨ patch.title = none) →
     (patch.body = some p.body ∨ patch.body = none) →
      (updatePost s (some u) id patch now).2.revisions = s.revisions) ∧
    (∀ t, patch.title = some t → t ≠ "" → t ≠ p.title →
      (updatePost s (some u) id patch now).2.revisions =
        s.revisions ++
          [{ id := s.nextRevId, postId := p.id, editorId := u.id,
             title := p.title, content := p.body, createdAt := now }]) ∧
    (∀ b, patch.body = some b → b ≠ "" → b ≠ p.body →
      (updatePost s (some u) id patch now).2.revisions =
        s.revisions ++
          [{ id := s.nextRevId, postId := p.id, editorId := u.id,
             title := p.title, content := p.body, createdAt := now }]) ∧
    (patch.title = none → patch.body = some "" → patch.status = none →
      updatePost s (some u) id patch now =
        (.err 500 "Post validation failed", s)) := by
  refine ⟨?_, ?_, ?_, ?_⟩
  · intro h1 h2
    rw [updatePost_revisions s u id now patch p hp hnd hauth]
    have hc : ((strTruthy patch.title && patch.title.getD "" != p.title) ||
        (strTruthy patch.body && patch.body.getD "" != p.body)) = false := by
      rcases h1 with h1 | h1 <;> rcases h2 with h2 | h2 <;>
        simp [h1, h2, strTruthy]
    simp [hc]
  · intro t htt hne hdiff
    rw [updatePost_revisions s u id now patch p hp hnd hauth]
    have hc : ((strTruthy patch.title && patch.title.getD "" != p.title) ||
        (strTruthy patch.body && patch.body.getD "" != p.body)) = true := by
      simp [htt, strTruthy, hne, hdiff]
    simp [hc]
  · intro b hbb hne hdiff
    rw [updatePost_revisions s u id now patch p hp hnd hauth]
    have hc : ((strTruthy patch.title && patch.title.getD "" != p.title) ||
        (strTruthy patch.body && patch.body.getD "" != p.body)) = true := by
      simp [hbb, strTruthy, hne, hdiff]
    simp [hc]
  · intro ht hb hst
    have hc : ((strTruthy patch.title && patch.title.getD "" != p.title) ||
        (strTruthy patch.body && patch.body.getD "" != p.body)) = false := by
      simp [ht, hb, strTruthy]
    simp only [updatePost, hp, hnd, hauth, Bool.not_true, Bool.false_eq_true,
      if_false]
    rw [hc]
    simp [ht, hb, hst, strTruthy, modifiedPathsOk]

/-- C6, witness: the four revision rules instantiated on `c6Store` with a
no-op patch, a changed title, a changed non-empty body, and the empty-string
body. -/
theorem update_revision_snapshot_witness :
    ((updatePost c6Store (some ⟨7, "author"⟩) 1
        { title := some "t", body := some "x" } 9).2.revisions = c6Store.revisions) ∧
    ((updatePost c6Store (some ⟨7, "author"⟩) 1 { title := some "u2" } 9).2.revisions =
      c6Store.revisions ++
        [{ id := 1, postId := 1, editorId := 7, title := "t", content := "x",
           createdAt := 9 }]) ∧
    ((updatePost c6Store (some ⟨7, "author"⟩) 1 { body := some "y" } 9).2.revisions =
      c6Store.revisions ++
        [{ id := 1, postId := 1, editorId := 7, title := "t", content := "x",
           createdAt := 9 }]) ∧
    (updatePost c6Store (some ⟨7, "author"⟩) 1 { body := some "" } 9 =
      (.err 500 "Post validation failed", c6Store)) :=
  ⟨(update_revision_snapshot c6Store ⟨7, "author"⟩ 1 9
      { title := some "t", body := some "x" } c6Post (by decide) (by decide)
      (by decide)).1 (Or.inl rfl) (Or.inl rfl),
   (update_revision_snapshot c6Store ⟨7, "author"⟩ 1 9 { title := some "u2" }
      c6Post (by decide) (by decide) (by decide)).2.1 "u2" rfl (by decide) (by decide),
   (update_revision_snapshot c6Store ⟨7, "author"⟩ 1 9 { body := some "y" }
      c6Post (by decide) (by decide) (by decide)).2.2.1 "y" rfl (by decide) (by decide),
   (update_revision_snapshot c6Store ⟨7, "author"⟩ 1 9 { body := some "" }
      c6Post (by decide) (by decide) (by decide)).2.2.2 rfl rfl rfl⟩

/-! Claim C7. -/

/-- C7: restoring a matching revision overwrites the post's title and body
with the revision's content and appends exactly one new revision capturing
the pre-restore title and body; the existing history is kept intact (the new
trail is the old trail with one snapshot appended). -/
theorem restoreRevision_roundtrip (s : Store) (u : User) (id revId now : Nat)
    (p : Post) (rev : Revision)
    (hp : findPost s.posts id = some p)
    (hauth : isOwnerOrAdmin (some u) p.authorId = true)
    (hrev : findRev s.revisions revId = some rev)
    (hmatch : rev.postId = p.id) :
    findPost (restoreRevision s (some u) id revId now).2.posts id =
      some { p with title := rev.title, body := rev.content, updatedAt := now } ∧
    (restoreRevision s (some u) id revId now).2.revisions =
      s.revisions ++
        [{ id := s.nextRevId, postId := p.id, editorId := u.id,
           title := p.title, content := p.body, createdAt := now }] := by
  have hm : (rev.postId != p.id) = false := by simp [hmatch]
  constructor
  · simp only [restoreRevision, hp, hauth, hrev, hm, Bool.not_true,
      Bool.false_eq_true, if_false]
    rw [findPost_savePost, hp]
    simp
  · simp [restoreRevision, hp, hauth, hrev, hm, savePost]

/-- C7, witness: on `c7Store` (current content `(t2, c2)`, history holding a
revision with content `(t1, c1)`), restoring that revision yields post
content `(t1, c1)` and appends a snapshot of `(t2, c2)` to the history. -/
theorem restoreRevision_roundtrip_witness :
    (findPost (restoreRevision c7Store (some ⟨7, "author"⟩) 1 4 9).2.posts 1 =
      some { c7Post with title := "t1", body := "c1", updatedAt := 9 }) ∧
    ((restoreRevision c7Store (some ⟨7, "author"⟩) 1 4 9).2.revisions =
      c7Store.revisions ++
        [{ id := 5, postId := 1, editorId := 7,
           title := "t2", content := "c2", createdAt := 9 }]) :=
  restoreRevision_roundtrip c7Store ⟨7, "author"⟩ 1 4 9 c7Post c7Rev
    (by decide) (by decide) (by decide) (by decide)

/-! Claim C8. -/

/-- C8, counterexample: the title `!!!` normalizes to the empty base and no
fallback token is substituted before suffixing — slug allocation yields the
empty string, contradicting the claim; the attempted save is then rejected
by the schema's required-slug validation, so the creation fails with a
ValidationError (not with a fallback-slugged post). -/
theorem slug_empty_cex :
    slugify "!!!" = "" ∧
    allocSlug c8Store.posts (slugify "!!!") none = "" ∧
    createPost c8Store (some ⟨7, "author"⟩) "!!!" "hello" none 5 =
      (.err 500 "Post validation failed", c8Store) := by decide

/-- C8, amended: when normalization of a (non-empty) title yields an empty
base and no stored post already uses the empty slug, no fallback token is
substituted — slug allocation produces the empty string itself — and the
creation then fails the schema's required-slug validation, so the request
errors and no post is stored (in particular none with an empty slug). -/
theorem slug_empty_base (s : Store) (u : User) (title body : String)
    (ds : Option String) (now : Nat)
    (hbase : slugify title = "") (htitle : title ≠ "") (hbody : body ≠ "")
    (hfree : slugTaken s.posts "" none = false) :
    allocSlug s.posts (slugify title) none = "" ∧
    createPost s (some u) title body ds now =
      (.err 500 "Post validation failed", s) := by
  have h1 : (title == "") = false := by simpa using htitle
  have h2 : (body == "") = false := by simpa using hbody
  have ha : allocSlug s.posts "" none = "" := by simp [allocSlug, hfree]
  refine ⟨by rw [hbase]; exact ha, ?_⟩
  simp only [createPost, h1, h2, Bool.or_self, Bool.false_eq_true, if_false,
    hbase, ha]
  simp

/-- C8, witness: the amended statement instantiated with title `!!!` on the
empty store. -/
theorem slug_empty_base_witness :
    slugify "!!!" = "" ∧ ("!!!" : String) ≠ "" ∧ ("hello" : String) ≠ "" ∧
    slugTaken c8Store.posts "" none = false ∧
    (allocSlug c8Store.posts (slugify "!!!") none = "" ∧
     createPost c8Store (some ⟨7, "author"⟩) "!!!" "hello" none 5 =
       (.err 500 "Post validation failed", c8Store)) :=
  ⟨by decide, by decide, by decide, by decide,
   slug_empty_base c8Store ⟨7, "author"⟩ "!!!" "hello" none 5 (by decide) (by decide)
     (by decide) (by decide)⟩

/-! Claim C9. -/

/-- C9, counterexample: the owning non-admin author directly patches status
`archived` through `updatePost`; the call succeeds and the stored status
becomes `archived` — contradicting the claim that a status outside the state
machine's declared transitions is rejected with an error and leaves the
status unchanged. -/
theorem author_sets_archived_cex :
    (findPost c9Store.posts 1).map Post.status = some "draft" ∧
    (updatePost c9Store (some ⟨7, "author"⟩) 1 { status := some "archived" } 9).1 =
      .ok "Post updated" ∧
    (findPost (updatePost c9Store (some ⟨7, "author"⟩) 1
        { status := some "archived" } 9).2.posts 1).map Post.status =
      some "archived" := by decide

/-- C9, amended: `updatePost` consults no transition table; any non-empty
patched status is stored as-is, except that `published` requested by a
non-admin is downgraded to `pending`, and `published` set by an admin stamps
`publishedAt` when it was unset. -/
theorem update_status_passthrough (s : Store) (u : User) (id now : Nat)
    (st : String) (p : Post)
    (hp : findPost s.posts id = some p) (hnd : p.isDeleted = false)
    (hauth : isOwnerOrAdmin (some u) p.authorId = true)
    (hst : st ≠ "") :
    (updatePost s (some u) id { status := some st } now).1 = .ok "Post updated" ∧
    findPost (updatePost s (some u) id { status := some st } now).2.posts id =
      some (if st == "published" && u.role != "admin" then
              { p with status := "pending", updatedAt := now }
            else
              { p with
                status := st
                publishedAt :=
                  if st == "published" && p.publishedAt.isNone then some now
                  else p.publishedAt
                updatedAt := now }) := by
  have h0 : (st == "") = false := by simpa using hst
  have hm : ∀ q : Post,
      modifiedPathsOk { title := none, body := none, status := some st } q = true := by
    intro q
    simp [modifiedPathsOk, strTruthy]
  constructor
  · simp [updatePost, hp, hnd, hauth, hm]
  · simp only [updatePost, hp, hnd, hauth, Bool.not_true, Bool.false_eq_true,
      if_false, strTruthy, hm, if_true]
    rw [findPost_savePost]
    by_cases hpub : (st == "published" && u.role != "admin") = true
    · simp [h0, hpub, hp, strTruthy]
    · have hb : (st == "published" && u.role != "admin") = false := by
        simpa using hpub
      simp [h0, hb, hp, strTruthy]

/-- C9, witness: the amended statement instantiated on `c9Store` with the
owning author patching status `archived`. -/
theorem update_status_passthrough_witness :
    ((updatePost c9Store (some ⟨7, "author"⟩) 1 { status := some "archived" } 9).1 =
      .ok "Post updated" ∧
     findPost (updatePost c9Store (some ⟨7, "author"⟩) 1
        { status := some "archived" } 9).2.posts 1 =
       some (if ("archived" : String) == "published" && ("author" : String) != "admin" then
               { c9Post with status := "pending", updatedAt := 9 }
             else
               { c9Post with
                 status := "archived"
                 publishedAt :=
                   if ("archived" : String) == "published" && c9Post.publishedAt.isNone
                   then some 9 else c9Post.publishedAt
                 updatedAt := 9 })) :=
  update_status_passthrough c9Store ⟨7, "author"⟩ 1 9 "archived" c9Post
    (by decide) (by decide) (by decide) (by decide)

/-! Claim C10. -/

/-- C10: `unpublishPost` succeeds on every existing post the actor owns (or
as admin), with no check of the current status or the `isDeleted` flag, and
stores status `draft` while leaving `isDeleted` and `publishedAt` untouched
— so a soft-deleted post can end up as a deleted draft. -/
theorem unpublish_unconditional (s : Store) (u : User) (id now : Nat) (p : Post)
    (hp : findPost s.posts id = some p)
    (hauth : isOwnerOrAdmin (some u) p.authorId = true) :
    (unpublishPost s (some u) id now).1 = .ok "Post unpublished" ∧
    findPost (unpublishPost s (some u) id now).2.posts id =
      some { p with status := "draft", updatedAt := now } := by
  constructor
  · simp [unpublishPost, hp, hauth]
  · simp only [unpublishPost, hp, hauth, Bool.not_true, Bool.false_eq_true, if_false]
    rw [findPost_savePost, hp]
    simp

/-- C10, witness: unpublishing the soft-deleted, once-published `c10Post`
succeeds and leaves it a draft that is still soft-deleted with its
`publishedAt` intact. -/
theorem unpublish_unconditional_witness :
    ((unpublishPost c10Store (some ⟨7, "author"⟩) 1 9).1 = .ok "Post unpublished" ∧
     findPost (unpublishPost c10Store (some ⟨7, "author"⟩) 1 9).2.posts 1 =
       some { c10Post with status := "draft", updatedAt := 9 }) ∧
    ({ c10Post with status := "draft", updatedAt := 9 }).isDeleted = true ∧
    ({ c10Post with status := "draft", updatedAt := 9 }).publishedAt = some 3 :=
  ⟨unpublish_unconditional c10Store ⟨7, "author"⟩ 1 9 c10Post (by decide) (by decide),
   by decide, by decide⟩
